import Mathlib

/-!
Shallow embedding of the attachment-handling routes of the repository
(`src/server/routes/api/attachments/attachments.ts`) and of the client
upload driver (`src/unnamed/part_000`), together with proofs of the
spec's claims about them.

External collaborators (ORM row storage, authorization policy engine,
object-storage client, background job queue, shared helpers such as
`AttachmentHelper`, `bytesToHumanReadable`, `getFileNameFromUrl`,
`presentAttachment`) are modelled as oracles bundled in an `Env`
record: the handlers are deterministic functions of the request, the
caller, the repository state (a list of attachment rows) and that
environment. Database writes are made explicit by threading the row
list; change notifications emitted by non-silent row updates are made
explicit by an event trace.
-/

namespace Attachments

/-- Attachment usage preset (`AttachmentPreset` from `@shared/types`):
`DocumentAttachment`, `WorkspaceImport` (a team-asset preset) and `Avatar`. -/
inductive AttachmentPreset
  | documentAttachment
  | workspaceImport
  | avatar
deriving DecidableEq

/-- Storage access tier of an attachment (`acl` column): public-read or private. -/
inductive Acl
  | publicRead
  | privateAcl
deriving DecidableEq

/-- An attachment row as persisted by the handlers: exactly the columns the
route code writes in `Attachment.createWithCtx` plus the ORM-managed
`createdAt`/`lastAccessedAt` columns the routes read or update. -/
structure AttachmentRecord where
  id : Nat
  key : String
  acl : Acl
  size : Nat
  contentType : String
  documentId : Option Nat
  teamId : Nat
  userId : Nat
  expiresAt : Option Nat
  lastAccessedAt : Option Nat
  createdAt : Nat
deriving DecidableEq

/-- Derived `isPrivate` getter of the attachment model: true iff the acl is private. -/
def AttachmentRecord.isPrivate (a : AttachmentRecord) : Bool :=
  a.acl == Acl.privateAcl

/-- The authenticated caller (`ctx.state.auth.user`): only the fields the
routes consult. -/
structure User where
  id : Nat
  teamId : Nat
  isAdmin : Bool
deriving DecidableEq

/-- Errors surfaced by the routes. `validationError`, `authorizationError` and
`invalidRequestError` are the named error constructors imported from
`@server/errors`; `notFound` models `findByPk` with `rejectOnEmpty`;
`storageError` models a failure of the object-storage client issuing a
presigned post; `databaseError` models a rejected ORM write. -/
inductive ApiError
  | validationError (message : String)
  | authorizationError
  | invalidRequestError (message : String)
  | notFound
  | storageError
  | databaseError
deriving DecidableEq

/-- Completion value of the Remote-Fetch Job (`UploadAttachmentFromUrlTask`):
either it has populated the attachment row with a real size and content type,
or it reports an error outcome (the `"error" in response` check). -/
inductive JobResponse
  | success (size : Nat) (contentType : String)
  | failure (error : String)
deriving DecidableEq

/-- Observable side effects of a handler run beyond the row list itself:
`persisted` marks the commit of a standalone row-creating transaction,
`scheduled` marks the scheduling of the Remote-Fetch Job, and `notified`
marks a change notification emitted by a non-silent row update. -/
inductive Event
  | persisted (record : AttachmentRecord)
  | scheduled (attachmentId : Nat) (url : String)
  | notified (channel : String)
deriving DecidableEq

/-- The environment of oracles standing for the external collaborators of the
routes: the `AttachmentHelper` policy functions, shared utility helpers,
the authorization policy engine, the object-storage client, id/clock
sources, model url getters, the Remote-Fetch Job outcome, and the outcome
of the `lastAccessedAt` row write on the redirect path. -/
structure Env where
  presetToMaxUploadSize : AttachmentPreset → Nat
  presetToAcl : AttachmentPreset → Acl
  presetToExpiry : AttachmentPreset → Option Nat
  getKey : Acl → Nat → Nat → String → String
  avatarContentTypes : List String
  bytesToHumanReadable : Nat → String
  documentExists : Nat → Bool
  canUpdateDocument : Nat → Bool
  canReadDocument : Nat → Bool
  canCreateAttachment : Bool
  presignedPostFields : Option (List (String × String))
  uploadUrl : String
  newId : Nat
  now : Nat
  getFileNameFromUrl : String → Option String
  attachmentUrl : AttachmentRecord → String
  redirectUrl : AttachmentRecord → String
  signedUrl : AttachmentRecord → String
  canonicalUrl : AttachmentRecord → String
  defaultSignedUrlExpires : Nat
  jobResult : JobResponse
  lastAccessedWriteFails : Bool

/-- Body of `attachments.create`. -/
structure CreateReq where
  name : String
  documentId : Option Nat
  contentType : String
  size : Nat
  preset : AttachmentPreset
deriving DecidableEq

/-- Body of `attachments.createFromUrl`. -/
structure CreateFromUrlReq where
  url : String
  documentId : Option Nat
  preset : AttachmentPreset
deriving DecidableEq

/-- Body of `attachments.list` together with the pagination middleware state. -/
structure ListReq where
  documentId : Option Nat
  userId : Option Nat
  offset : Nat
  limit : Nat
deriving DecidableEq

/-- Input of the redirect handler: the attachment id from body or query. -/
structure RedirectReq where
  id : Nat
deriving DecidableEq

/-- The attachment projection exposed in responses; only the fields the
claims are about (the presenter itself is an external collaborator). -/
structure AttachmentProjection where
  id : Nat
  url : String
deriving DecidableEq

/-- Response body of `attachments.create`. -/
structure CreateResponseData where
  uploadUrl : String
  form : List (String × String)
  attachment : AttachmentProjection
deriving DecidableEq

/-- An HTTP redirect response: `ctx.redirect` with the `Cache-Control` header
set by the handler. `ctx.redirect` in koa answers with status 302. -/
structure RedirectResponse where
  status : Nat
  location : String
  cacheControl : String
deriving DecidableEq

/-- `authorize(user, "update", document)` after `Document.findByPk`: the
policy engine rejects when the document is not found or the caller lacks
update permission on it. -/
def authorizeDocUpdate (env : Env) (docId : Nat) : Except ApiError Unit :=
  if env.documentExists docId && env.canUpdateDocument docId then Except.ok ()
  else Except.error ApiError.authorizationError

/-- `authorize(user, "read", document)` after `Document.findByPk`, used by the
list route's document filter. -/
def authorizeDocRead (env : Env) (docId : Nat) : Except ApiError Unit :=
  if env.documentExists docId && env.canReadDocument docId then Except.ok ()
  else Except.error ApiError.authorizationError

/-- `authorize(user, "createAttachment", user.team)`. -/
def authorizeTeamCreateAttachment (env : Env) : Except ApiError Unit :=
  if env.canCreateAttachment then Except.ok ()
  else Except.error ApiError.authorizationError

/-- Modelled from the spec: `assertIn` from `@server/validation` (not under
`src/`) checks membership in the avatar content-type allow-list and throws a
`ValidationError` otherwise ("Avatar preset requires only content-type
allow-listing"). -/
def assertInContentType (env : Env) (contentType : String) : Except ApiError Unit :=
  if env.avatarContentTypes.contains contentType then Except.ok ()
  else Except.error (ApiError.validationError "Invalid content type")

/-- The authorization chain at the top of `attachments.create`:
`if (preset === Avatar) { assertIn(...) } else if (preset === DocumentAttachment
&& documentId) { authorize update document } else { authorize createAttachment
team }`. -/
def createAuthorize (env : Env) (req : CreateReq) : Except ApiError Unit :=
  if req.preset = AttachmentPreset.avatar then
    assertInContentType env req.contentType
  else
    match req.documentId with
    | some docId =>
        if req.preset = AttachmentPreset.documentAttachment then
          authorizeDocUpdate env docId
        else
          authorizeTeamCreateAttachment env
    | none => authorizeTeamCreateAttachment env

/-- The attachment row built by `attachments.create`: a fresh id, the key and
acl from the `AttachmentHelper` policy, the caller's sizes and ownership. -/
def newAttachmentRecord (env : Env) (user : User) (req : CreateReq) : AttachmentRecord :=
  { id := env.newId
    key := env.getKey (env.presetToAcl req.preset) env.newId user.id req.name
    acl := env.presetToAcl req.preset
    size := req.size
    contentType := req.contentType
    documentId := req.documentId
    teamId := user.teamId
    userId := user.id
    expiresAt := env.presetToExpiry req.preset
    lastAccessedAt := none
    createdAt := env.now }

/-- The `attachments.create` handler body, run inside the ambient transaction
opened by the `transaction()` middleware: authorization chain, size-limit
check against `AttachmentHelper.presetToMaxUploadSize`, row creation,
presigned-post issuance, and the response whose exposed `url` is the
`redirectUrl` exactly for the `DocumentAttachment` preset. -/
def attachmentsCreateTx (env : Env) (user : User) (req : CreateReq)
    (st : List AttachmentRecord) :
    Except ApiError (CreateResponseData × List AttachmentRecord) :=
  match createAuthorize env req with
  | Except.error e => Except.error e
  | Except.ok _ =>
    let maxUploadSize := env.presetToMaxUploadSize req.preset
    if req.size > maxUploadSize then
      Except.error (ApiError.validationError
        ("Sorry, this file is too large – the maximum size is " ++
          env.bytesToHumanReadable maxUploadSize))
    else
      let attachment := newAttachmentRecord env user req
      let st1 := st ++ [attachment]
      match env.presignedPostFields with
      | none => Except.error ApiError.storageError
      | some fields =>
        Except.ok
          ({ uploadUrl := env.uploadUrl
             form := ("Cache-Control", "max-age=31557600") ::
               ("Content-Type", req.contentType) :: fields
             attachment :=
               { id := attachment.id
                 url :=
                   if req.preset = AttachmentPreset.documentAttachment then
                     env.redirectUrl attachment
                   else
                     env.attachmentUrl attachment } }, st1)

/-- `attachments.create` as observed by callers: the `transaction()`
middleware commits the row writes on success and rolls them back when the
handler throws, so an error leaves the repository state unchanged. -/
def runAttachmentsCreate (env : Env) (user : User) (req : CreateReq)
    (st : List AttachmentRecord) :
    Except ApiError CreateResponseData × List AttachmentRecord :=
  match attachmentsCreateTx env user req st with
  | Except.ok (resp, st1) => (Except.ok resp, st1)
  | Except.error e => (Except.error e, st)

/-- Update a row in place by id, as the ORM does for `attachment.update`
and for the Remote-Fetch Job's out-of-band mutation. -/
def applyUpdate (st : List AttachmentRecord) (id : Nat)
    (f : AttachmentRecord → AttachmentRecord) : List AttachmentRecord :=
  st.map fun a => if a.id == id then f a else a

/-- The zero-byte attachment row persisted by `attachments.createFromUrl`:
name derived from the url (fallback `"file"`), `size = 0`,
`contentType = "application/octet-stream"`. -/
def newUrlAttachmentRecord (env : Env) (user : User) (req : CreateFromUrlReq) :
    AttachmentRecord :=
  let name := (env.getFileNameFromUrl req.url).getD "file"
  { id := env.newId
    key := env.getKey (env.presetToAcl req.preset) env.newId user.id name
    acl := env.presetToAcl req.preset
    size := 0
    contentType := "application/octet-stream"
    documentId := req.documentId
    teamId := user.teamId
    userId := user.id
    expiresAt := env.presetToExpiry req.preset
    lastAccessedAt := none
    createdAt := env.now }

/-- The `attachments.createFromUrl` handler. The guard
`preset !== DocumentAttachment || !documentId` is rendered as its
equivalent positive form (documentId present and preset equal). The row is
created in its own `sequelize.transaction` — committed before the job is
scheduled and never rolled back afterwards — hence the state is threaded
through error outcomes too. On job success the job has mutated the row
out-of-band and the handler reloads it. -/
def attachmentsCreateFromUrl (env : Env) (user : User) (req : CreateFromUrlReq)
    (st : List AttachmentRecord) :
    Except ApiError AttachmentProjection × List AttachmentRecord × List Event :=
  match req.documentId with
  | none =>
    (Except.error (ApiError.validationError
      "Only document attachments can be created from a URL"), st, [])
  | some docId =>
    if req.preset = AttachmentPreset.documentAttachment then
      match authorizeDocUpdate env docId with
      | Except.error e => (Except.error e, st, [])
      | Except.ok _ =>
        let attachment := newUrlAttachmentRecord env user req
        let st1 := st ++ [attachment]
        let events := [Event.persisted attachment,
          Event.scheduled attachment.id req.url]
        match env.jobResult with
        | JobResponse.failure msg =>
          (Except.error (ApiError.invalidRequestError msg), st1, events)
        | JobResponse.success sz ct =>
          let st2 := applyUpdate st1 attachment.id
            fun a => { a with size := sz, contentType := ct }
          let reloaded := { attachment with size := sz, contentType := ct }
          (Except.ok { id := attachment.id, url := env.attachmentUrl reloaded },
            st2, events)
    else
      (Except.error (ApiError.validationError
        "Only document attachments can be created from a URL"), st, [])

/-- The shared GET/POST redirect handler `handleAttachmentsRedirect`:
find the row (`rejectOnEmpty`), reject private cross-team access, perform the
awaited `lastAccessedAt` update with `silent: true` (so it emits no change
notification, but its failure propagates), then redirect with the
tier-appropriate `Cache-Control`. -/
def handleAttachmentsRedirect (env : Env) (user : User) (req : RedirectReq)
    (st : List AttachmentRecord) :
    Except ApiError RedirectResponse × List AttachmentRecord × List Event :=
  match st.find? (fun a => a.id == req.id) with
  | none => (Except.error ApiError.notFound, st, [])
  | some attachment =>
    if attachment.isPrivate && attachment.teamId != user.teamId then
      (Except.error ApiError.authorizationError, st, [])
    else
      -- the update call passes `silent: true`: no change notification
      let silent := true
      let events := if silent then [] else [Event.notified "attachments.update"]
      if env.lastAccessedWriteFails then
        (Except.error ApiError.databaseError, st, events)
      else
        let attachment1 := { attachment with lastAccessedAt := some env.now }
        let st1 := applyUpdate st attachment.id
          fun a => { a with lastAccessedAt := some env.now }
        if attachment1.isPrivate then
          (Except.ok
            { status := 302
              location := env.signedUrl attachment1
              cacheControl := "max-age=" ++ toString env.defaultSignedUrlExpires
                ++ ", immutable" }, st1, events)
        else
          (Except.ok
            { status := 302
              location := env.canonicalUrl attachment1
              cacheControl := "max-age=604800, immutable" }, st1, events)

/-- The `where` filter built by `attachments.list`: team scoping, the
effective user filter, and the optional document filter. -/
def whereMatches (user : User) (whereUserId : Nat) (docFilter : Option Nat)
    (a : AttachmentRecord) : Bool :=
  a.teamId == user.teamId && a.userId == whereUserId &&
    (match docFilter with
     | some d => a.documentId == some d
     | none => true)

/-- Insert a row into a list ordered by `createdAt` descending. -/
def insertDesc (a : AttachmentRecord) : List AttachmentRecord → List AttachmentRecord
  | [] => [a]
  | b :: rest =>
    if b.createdAt ≥ a.createdAt then b :: insertDesc a rest else a :: b :: rest

/-- `order: [["createdAt", "DESC"]]` of the list query. -/
def sortByCreatedAtDesc (l : List AttachmentRecord) : List AttachmentRecord :=
  l.foldr insertDesc []

/-- The effective user filter of `attachments.list`:
`if (userId && user.isAdmin) { where.userId = userId } else { where.userId =
user.id }` — a requested `userId` is honoured only for admin callers,
everyone else is pinned to their own id. -/
def effectiveUserId (user : User) (requested : Option Nat) : Nat :=
  match requested with
  | some u => if user.isAdmin then u else user.id
  | none => user.id

/-- The `attachments.list` handler: effective user filter, document-read
authorization when a document filter is given, then the ordered, paginated
rows and the total count over the same filter. -/
def attachmentsList (env : Env) (user : User) (req : ListReq)
    (st : List AttachmentRecord) :
    Except ApiError (List AttachmentRecord × Nat) :=
  let whereUserId := effectiveUserId user req.userId
  let docAuth : Except ApiError Unit :=
    match req.documentId with
    | some docId => authorizeDocRead env docId
    | none => Except.ok ()
  match docAuth with
  | Except.error e => Except.error e
  | Except.ok _ =>
    let filtered := st.filter (whereMatches user whereUserId req.documentId)
    Except.ok
      (((sortByCreatedAtDesc filtered).drop req.offset).take req.limit,
        filtered.length)

/-- Final transport state of the client upload, as seen by the `loadend`
listener of the XMLHttpRequest in `uploadFile`. -/
structure XhrCompletion where
  readyState : Nat
  status : Nat
deriving DecidableEq

/-- The success predicate of the client driver's `loadend` listener:
`xhr.readyState === 4 && xhr.status >= 200 && xhr.status < 400`. -/
def uploadSucceeded (c : XhrCompletion) : Bool :=
  c.readyState == 4 && decide (200 ≤ c.status) && decide (c.status < 400)

/-- Terminal failures of the client `uploadFile` driver: a failed
`attachments.create` API call, or the single `Error("Upload failed")` thrown
after an unsuccessful transfer. -/
inductive UploadFailure
  | api (e : ApiError)
  | transfer (message : String)
deriving DecidableEq

/-- The client `uploadFile` driver after form assembly: it resolves the
attachment projection from the create response exactly when the transfer
completion is successful, and otherwise throws the single terminal
`Error("Upload failed")`. -/
def uploadFile (createResult : Except ApiError CreateResponseData)
    (completion : XhrCompletion) : Except UploadFailure AttachmentProjection :=
  match createResult with
  | Except.error e => Except.error (UploadFailure.api e)
  | Except.ok data =>
    if uploadSucceeded completion then Except.ok data.attachment
    else Except.error (UploadFailure.transfer "Upload failed")

/-! ### Concrete fixtures used to instantiate the theorems -/

/-- A concrete oracle environment: permissive policy engine, working
storage, fixed id and clock. -/
def baseEnv : Env :=
  { presetToMaxUploadSize := fun _ => 1000
    presetToAcl := fun p =>
      match p with
      | AttachmentPreset.avatar => Acl.publicRead
      | _ => Acl.privateAcl
    presetToExpiry := fun _ => none
    getKey := fun _ id uid name =>
      "uploads/" ++ toString uid ++ "/" ++ toString id ++ "/" ++ name
    avatarContentTypes := ["image/png", "image/jpeg"]
    bytesToHumanReadable := fun n => toString n ++ " B"
    documentExists := fun _ => true
    canUpdateDocument := fun _ => true
    canReadDocument := fun _ => true
    canCreateAttachment := true
    presignedPostFields := some [("key", "uploads/1/42/file.png")]
    uploadUrl := "https://storage.example.com"
    newId := 42
    now := 1000
    getFileNameFromUrl := fun _ => some "file.png"
    attachmentUrl := fun a => "https://cdn.example.com/" ++ a.key
    redirectUrl := fun a => "/api/attachments.redirect?id=" ++ toString a.id
    signedUrl := fun a => "https://signed.example.com/" ++ a.key
    canonicalUrl := fun a => "https://cdn.example.com/" ++ a.key
    defaultSignedUrlExpires := 3600
    jobResult := JobResponse.success 5 "image/png"
    lastAccessedWriteFails := false }

/-- The concrete non-admin caller. -/
def callerW : User := { id := 1, teamId := 10, isAdmin := false }

/-- A public attachment row owned by the caller. -/
def publicRec : AttachmentRecord :=
  { id := 7, key := "uploads/1/7/a.png", acl := Acl.publicRead, size := 5
    contentType := "image/png", documentId := none, teamId := 10, userId := 1
    expiresAt := none, lastAccessedAt := none, createdAt := 100 }

/-- A private attachment row owned by the caller, same team. -/
def privateRec : AttachmentRecord :=
  { publicRec with id := 8, acl := Acl.privateAcl }

/-- An attachment row of another user in the same team. -/
def otherUserRec : AttachmentRecord :=
  { publicRec with id := 9, userId := 2, createdAt := 200 }

/-- The environment in which the `lastAccessedAt` row write is rejected by
the database. -/
def envWriteFail : Env := { baseEnv with lastAccessedWriteFails := true }

/-- The environment in which the Remote-Fetch Job reports an error outcome. -/
def envJobFail : Env :=
  { baseEnv with jobResult := JobResponse.failure "Failed to fetch" }

/-- A well-formed `attachments.createFromUrl` request. -/
def reqFromUrl : CreateFromUrlReq :=
  { url := "https://example.com/a.png", documentId := some 3
    preset := AttachmentPreset.documentAttachment }

/-! ### Claims -/

/-- C4: every `attachments.createFromUrl` request whose preset is not
`DocumentAttachment`, or whose `documentId` is absent, fails with
`ValidationError` and leaves the repository unchanged — no attachment
record is persisted and no job is scheduled. -/
theorem createFromUrl_wrong_preset_or_missing_doc (env : Env) (user : User)
    (req : CreateFromUrlReq) (st : List AttachmentRecord)
    (h : req.preset ≠ AttachmentPreset.documentAttachment ∨ req.documentId = none) :
    attachmentsCreateFromUrl env user req st =
      (Except.error (ApiError.validationError
        "Only document attachments can be created from a URL"), st, []) := by
  unfold attachmentsCreateFromUrl
  cases hdoc : req.documentId with
  | none => rfl
  | some d =>
    rcases h with h | h
    · simp [h]
    · rw [hdoc] at h
      cases h

/-- C4 witness: a request with the `Avatar` preset is rejected with the
`ValidationError` and the repository stays empty. -/
theorem createFromUrl_wrong_preset_or_missing_doc_witness :
    attachmentsCreateFromUrl baseEnv callerW
        { url := "https://example.com/a.png", documentId := some 3
          preset := AttachmentPreset.avatar } [] =
      (Except.error (ApiError.validationError
        "Only document attachments can be created from a URL"), [], []) :=
  createFromUrl_wrong_preset_or_missing_doc baseEnv callerW
    { url := "https://example.com/a.png", documentId := some 3
      preset := AttachmentPreset.avatar } []
    (Or.inl (by decide))

/-- C2: when the Remote-Fetch Job completes with an error outcome, the
`attachments.createFromUrl` call fails with `InvalidRequestError` carrying
the job's error message verbatim, and the previously persisted zero-byte
attachment record is still in the repository afterwards. -/
theorem createFromUrl_job_error_keeps_record (env : Env) (user : User)
    (req : CreateFromUrlReq) (st : List AttachmentRecord) (docId : Nat)
    (msg : String)
    (hpreset : req.preset = AttachmentPreset.documentAttachment)
    (hdoc : req.documentId = some docId)
    (hauth : authorizeDocUpdate env docId = Except.ok ())
    (hjob : env.jobResult = JobResponse.failure msg) :
    (attachmentsCreateFromUrl env user req st).1 =
      Except.error (ApiError.invalidRequestError msg) ∧
    newUrlAttachmentRecord env user req ∈
      (attachmentsCreateFromUrl env user req st).2.1 ∧
    (newUrlAttachmentRecord env user req).size = 0 ∧
    (newUrlAttachmentRecord env user req).contentType =
      "application/octet-stream" := by
  unfold attachmentsCreateFromUrl
  rw [hdoc]
  simp [hpreset, hauth, hjob, newUrlAttachmentRecord]

/-- C2 witness: the concrete job failure "Failed to fetch" surfaces as
`InvalidRequestError "Failed to fetch"` and the zero-byte record remains. -/
theorem createFromUrl_job_error_keeps_record_witness :
    (attachmentsCreateFromUrl envJobFail callerW reqFromUrl []).1 =
      Except.error (ApiError.invalidRequestError "Failed to fetch") ∧
    newUrlAttachmentRecord envJobFail callerW reqFromUrl ∈
      (attachmentsCreateFromUrl envJobFail callerW reqFromUrl []).2.1 ∧
    (newUrlAttachmentRecord envJobFail callerW reqFromUrl).size = 0 ∧
    (newUrlAttachmentRecord envJobFail callerW reqFromUrl).contentType =
      "application/octet-stream" :=
  createFromUrl_job_error_keeps_record envJobFail callerW reqFromUrl [] 3
    "Failed to fetch" rfl rfl rfl rfl

/-- C5: a validated and authorized `attachments.createFromUrl` request
persists the attachment record — `size = 0`,
`contentType = "application/octet-stream"` — in its own committed
transaction strictly before scheduling the Remote-Fetch Job (the event
trace is exactly the commit followed by the scheduling), and a record with
that id is still in the repository when the call finishes, whatever the
job's outcome. -/
theorem createFromUrl_persist_before_schedule (env : Env) (user : User)
    (req : CreateFromUrlReq) (st : List AttachmentRecord) (docId : Nat)
    (hpreset : req.preset = AttachmentPreset.documentAttachment)
    (hdoc : req.documentId = some docId)
    (hauth : authorizeDocUpdate env docId = Except.ok ()) :
    (attachmentsCreateFromUrl env user req st).2.2 =
      [Event.persisted (newUrlAttachmentRecord env user req),
       Event.scheduled (newUrlAttachmentRecord env user req).id req.url] ∧
    (newUrlAttachmentRecord env user req).size = 0 ∧
    (newUrlAttachmentRecord env user req).contentType =
      "application/octet-stream" ∧
    ∃ a ∈ (attachmentsCreateFromUrl env user req st).2.1,
      a.id = (newUrlAttachmentRecord env user req).id := by
  unfold attachmentsCreateFromUrl
  rw [hdoc]
  cases hjob : env.jobResult with
  | failure msg =>
    refine ⟨by simp [hpreset, hauth, hjob], rfl, rfl,
      newUrlAttachmentRecord env user req, ?_, rfl⟩
    simp [hpreset, hauth, hjob]
  | success sz ct =>
    refine ⟨by simp [hpreset, hauth, hjob], rfl, rfl, ?_⟩
    refine ⟨{ newUrlAttachmentRecord env user req with
      size := sz, contentType := ct }, ?_, rfl⟩
    simp [hpreset, hauth, hjob, applyUpdate]

/-- C5 witness: the concrete request's trace is the commit of the zero-byte
record followed by the job scheduling, and the record is in the final
repository. -/
theorem createFromUrl_persist_before_schedule_witness :
    (attachmentsCreateFromUrl baseEnv callerW reqFromUrl []).2.2 =
      [Event.persisted (newUrlAttachmentRecord baseEnv callerW reqFromUrl),
       Event.scheduled (newUrlAttachmentRecord baseEnv callerW reqFromUrl).id
         reqFromUrl.url] ∧
    (newUrlAttachmentRecord baseEnv callerW reqFromUrl).size = 0 ∧
    (newUrlAttachmentRecord baseEnv callerW reqFromUrl).contentType =
      "application/octet-stream" ∧
    ∃ a ∈ (attachmentsCreateFromUrl baseEnv callerW reqFromUrl []).2.1,
      a.id = (newUrlAttachmentRecord baseEnv callerW reqFromUrl).id :=
  createFromUrl_persist_before_schedule baseEnv callerW reqFromUrl [] 3
    rfl rfl rfl

/-- C3: for every preset, a direct `attachments.create` request that passes
the authorization chain but whose size strictly exceeds
`AttachmentHelper.presetToMaxUploadSize(preset)` fails with a
`ValidationError` whose message embeds the human-readable size limit, and
the repository state is unchanged — no attachment record is persisted. -/
theorem create_oversize_rejected (env : Env) (user : User) (req : CreateReq)
    (st : List AttachmentRecord)
    (hauth : createAuthorize env req = Except.ok ())
    (hsize : env.presetToMaxUploadSize req.preset < req.size) :
    runAttachmentsCreate env user req st =
      (Except.error (ApiError.validationError
        ("Sorry, this file is too large – the maximum size is " ++
          env.bytesToHumanReadable (env.presetToMaxUploadSize req.preset))), st) := by
  unfold runAttachmentsCreate attachmentsCreateTx
  rw [hauth]
  simp [hsize]

/-- C3 witness: a 2000-byte upload against the 1000-byte limit is rejected
with the message naming "1000 B" and the repository stays empty. -/
theorem create_oversize_rejected_witness :
    runAttachmentsCreate baseEnv callerW
        { name := "big.png", documentId := none, contentType := "image/png"
          size := 2000, preset := AttachmentPreset.workspaceImport } [] =
      (Except.error (ApiError.validationError
        ("Sorry, this file is too large – the maximum size is " ++
          baseEnv.bytesToHumanReadable
            (baseEnv.presetToMaxUploadSize AttachmentPreset.workspaceImport))), []) :=
  create_oversize_rejected baseEnv callerW
    { name := "big.png", documentId := none, contentType := "image/png"
      size := 2000, preset := AttachmentPreset.workspaceImport } []
    rfl (by decide)

/-- C8: every successful direct `attachments.create` with the
`DocumentAttachment` preset exposes as the projection's `url` the stable
`redirectUrl` of the created record (not the raw storage url), and the
created record is persisted. -/
theorem create_docAttachment_uses_redirectUrl (env : Env) (user : User)
    (req : CreateReq) (st st1 : List AttachmentRecord)
    (resp : CreateResponseData)
    (hpreset : req.preset = AttachmentPreset.documentAttachment)
    (hok : runAttachmentsCreate env user req st = (Except.ok resp, st1)) :
    resp.attachment.url = env.redirectUrl (newAttachmentRecord env user req) ∧
    newAttachmentRecord env user req ∈ st1 := by
  unfold runAttachmentsCreate attachmentsCreateTx at hok
  cases hca : createAuthorize env req with
  | error e => rw [hca] at hok; cases hok
  | ok u =>
    rw [hca] at hok
    by_cases hsz : req.size > env.presetToMaxUploadSize req.preset
    · simp [hsz] at hok
    · cases hpf : env.presignedPostFields with
      | none => simp [hsz, hpf] at hok
      | some fields =>
        simp [hsz, hpf] at hok
        obtain ⟨hresp, hst⟩ := hok
        subst hresp hst
        simp [hpreset]

/-- C8 witness: the concrete `DocumentAttachment` create succeeds and its
projection's `url` is the record's `redirectUrl`. -/
theorem create_docAttachment_uses_redirectUrl_witness :
    ({ uploadUrl := baseEnv.uploadUrl
       form := ("Cache-Control", "max-age=31557600") ::
         ("Content-Type", "image/png") :: [("key", "uploads/1/42/file.png")]
       attachment :=
        { id := 42
          url := baseEnv.redirectUrl (newAttachmentRecord baseEnv callerW
            { name := "a.png", documentId := some 3, contentType := "image/png"
              size := 5, preset := AttachmentPreset.documentAttachment }) } }
      : CreateResponseData).attachment.url =
      baseEnv.redirectUrl (newAttachmentRecord baseEnv callerW
        { name := "a.png", documentId := some 3, contentType := "image/png"
          size := 5, preset := AttachmentPreset.documentAttachment }) ∧
    newAttachmentRecord baseEnv callerW
        { name := "a.png", documentId := some 3, contentType := "image/png"
          size := 5, preset := AttachmentPreset.documentAttachment } ∈
      [newAttachmentRecord baseEnv callerW
        { name := "a.png", documentId := some 3, contentType := "image/png"
          size := 5, preset := AttachmentPreset.documentAttachment }] :=
  create_docAttachment_uses_redirectUrl baseEnv callerW
    { name := "a.png", documentId := some 3, contentType := "image/png"
      size := 5, preset := AttachmentPreset.documentAttachment }
    [] _ _ rfl rfl

/-- C10: a direct `attachments.create` with the `DocumentAttachment` preset
but no `documentId` is not rejected as invalid: its outcome is independent
of the document-lookup and document-update oracles, authorization falls
through to the team-level `createAttachment` check (failing that check is
the only way it yields `AuthorizationError`), and with that permission,
an in-limit size and working storage the request succeeds. -/
theorem create_docAttachment_without_doc (env : Env) (user : User)
    (req : CreateReq) (st : List AttachmentRecord) (f g : Nat → Bool)
    (hpreset : req.preset = AttachmentPreset.documentAttachment)
    (hdoc : req.documentId = none) :
    runAttachmentsCreate
        { env with documentExists := g, canUpdateDocument := f } user req st =
      runAttachmentsCreate env user req st ∧
    (env.canCreateAttachment = false →
      runAttachmentsCreate env user req st =
        (Except.error ApiError.authorizationError, st)) ∧
    (env.canCreateAttachment = true →
      req.size ≤ env.presetToMaxUploadSize req.preset →
      ∀ fields, env.presignedPostFields = some fields →
        ∃ resp, (runAttachmentsCreate env user req st).1 = Except.ok resp) := by
  refine ⟨?_, ?_, ?_⟩
  · unfold runAttachmentsCreate attachmentsCreateTx
    simp [createAuthorize, hpreset, hdoc, authorizeTeamCreateAttachment,
      newAttachmentRecord]
  · intro hteam
    unfold runAttachmentsCreate attachmentsCreateTx
    simp [createAuthorize, hpreset, hdoc, authorizeTeamCreateAttachment, hteam]
  · intro hteam hsize fields hpf
    unfold runAttachmentsCreate attachmentsCreateTx
    have hlt : ¬ env.presetToMaxUploadSize AttachmentPreset.documentAttachment
        < req.size := by
      rw [← hpreset]
      exact Nat.not_lt.mpr hsize
    simp [createAuthorize, hpreset, hdoc, authorizeTeamCreateAttachment, hteam,
      hlt, hpf]

/-- C10 witness: the concrete request with no `documentId` succeeds (no
`ValidationError`, no `AuthorizationError`, no document permission needed). -/
theorem create_docAttachment_without_doc_witness :
    ∃ resp, (runAttachmentsCreate baseEnv callerW
        { name := "a.png", documentId := none, contentType := "image/png"
          size := 5, preset := AttachmentPreset.documentAttachment } []).1 =
      Except.ok resp :=
  (create_docAttachment_without_doc baseEnv callerW
    { name := "a.png", documentId := none, contentType := "image/png"
      size := 5, preset := AttachmentPreset.documentAttachment } []
    (fun _ => false) (fun _ => false) rfl rfl).2.2 rfl (by decide)
    [("key", "uploads/1/42/file.png")] rfl

/-- C1 counterexample: on a concrete accessible attachment, a rejected
`lastAccessedAt` row write makes the whole redirect call fail — the
timestamp write is not best-effort, refuting the claim that a failure of
that write never causes the redirect response to fail. -/
theorem redirect_write_failure_fails_redirect :
    (handleAttachmentsRedirect envWriteFail callerW { id := 7 }
      [publicRec]).1 = Except.error ApiError.databaseError := by
  rfl

/-- C1 (amended): for every `attachments.redirect` request the
`lastAccessedAt` update is silent — the handler never emits a change
notification — but the update is awaited without error handling, so when
that row write fails the redirect does not produce a response. -/
theorem redirect_lastAccessed_silent_and_awaited (env : Env) (user : User)
    (req : RedirectReq) (st : List AttachmentRecord) :
    (handleAttachmentsRedirect env user req st).2.2 = [] ∧
    (env.lastAccessedWriteFails = true →
      ∀ r, (handleAttachmentsRedirect env user req st).1 ≠ Except.ok r) := by
  unfold handleAttachmentsRedirect
  cases hfind : st.find? (fun a => a.id == req.id) with
  | none => simp
  | some attachment =>
    by_cases hp : (attachment.isPrivate && attachment.teamId != user.teamId) = true
    · simp [hp]
    · cases hw : env.lastAccessedWriteFails with
      | true => simp [hp, hw]
      | false =>
        by_cases hpriv : AttachmentRecord.isPrivate
            { attachment with lastAccessedAt := some env.now } = true <;>
          simp [hp, hw, hpriv]

/-- C1 witness: on the concrete failing-write environment, the handler emits
no change notification and returns no redirect response. -/
theorem redirect_lastAccessed_silent_and_awaited_witness :
    (handleAttachmentsRedirect envWriteFail callerW { id := 7 }
      [publicRec]).2.2 = [] ∧
    (handleAttachmentsRedirect envWriteFail callerW { id := 7 }
      [publicRec]).1 ≠
      Except.ok { status := 302, location := "", cacheControl := "" } :=
  ⟨(redirect_lastAccessed_silent_and_awaited envWriteFail callerW { id := 7 }
      [publicRec]).1,
   (redirect_lastAccessed_silent_and_awaited envWriteFail callerW { id := 7 }
      [publicRec]).2 rfl _⟩

/-- C6: on a private attachment, a cross-team `attachments.redirect` fails
with `AuthorizationError`; same-team, with the timestamp write going
through, it answers a 302 (3xx) redirect to the attachment's signed URL
with `Cache-Control` max-age equal to the configured signed-URL TTL. -/
theorem redirect_private_team_check (env : Env) (user : User)
    (req : RedirectReq) (st : List AttachmentRecord) (a : AttachmentRecord)
    (hfind : st.find? (fun r => r.id == req.id) = some a)
    (hpriv : a.isPrivate = true) :
    (a.teamId ≠ user.teamId →
      (handleAttachmentsRedirect env user req st).1 =
        Except.error ApiError.authorizationError) ∧
    (a.teamId = user.teamId → env.lastAccessedWriteFails = false →
      (handleAttachmentsRedirect env user req st).1 =
        Except.ok
          { status := 302
            location := env.signedUrl { a with lastAccessedAt := some env.now }
            cacheControl := "max-age=" ++ toString env.defaultSignedUrlExpires
              ++ ", immutable" }) := by
  unfold handleAttachmentsRedirect
  rw [hfind]
  constructor
  · intro hteam
    simp [hpriv, hteam]
  · intro hteam hw
    have hacl : (a.acl == Acl.privateAcl) = true := hpriv
    simp [hteam, hw, AttachmentRecord.isPrivate, hacl]

/-- C6 witness: the same-team caller is redirected to the signed URL of the
concrete private attachment with `max-age=3600`. -/
theorem redirect_private_team_check_witness :
    (handleAttachmentsRedirect baseEnv callerW { id := 8 } [privateRec]).1 =
      Except.ok
        { status := 302
          location := baseEnv.signedUrl
            { privateRec with lastAccessedAt := some baseEnv.now }
          cacheControl := "max-age=" ++
            toString baseEnv.defaultSignedUrlExpires ++ ", immutable" } :=
  (redirect_private_team_check baseEnv callerW { id := 8 } [privateRec]
    privateRec rfl rfl).2 rfl rfl

/-- Inserting into the descending-ordered list adds exactly the inserted
element to the members. -/
theorem mem_insertDesc {x a : AttachmentRecord} {l : List AttachmentRecord} :
    x ∈ insertDesc a l ↔ x = a ∨ x ∈ l := by
  induction l with
  | nil => simp [insertDesc]
  | cons b rest ih =>
    by_cases h : b.createdAt ≥ a.createdAt
    · simp only [insertDesc, if_pos h, List.mem_cons, ih]
      tauto
    · simp only [insertDesc, if_neg h, List.mem_cons]

/-- Ordering by `createdAt` descending preserves the members of the list. -/
theorem mem_sortByCreatedAtDesc {x : AttachmentRecord}
    {l : List AttachmentRecord} :
    x ∈ sortByCreatedAtDesc l ↔ x ∈ l := by
  unfold sortByCreatedAtDesc
  induction l with
  | nil => simp
  | cons a rest ih =>
    simp only [List.foldr_cons, mem_insertDesc, List.mem_cons, ih]

/-- C7: every attachment returned by `attachments.list` to a non-admin
caller belongs to that caller, whatever `userId` filter was requested and
whatever other rows exist in the team. -/
theorem list_non_admin_own_only (env : Env) (user : User) (req : ListReq)
    (st : List AttachmentRecord) (data : List AttachmentRecord) (total : Nat)
    (hadmin : user.isAdmin = false)
    (hok : attachmentsList env user req st = Except.ok (data, total)) :
    ∀ a ∈ data, a.userId = user.id := by
  have heff : effectiveUserId user req.userId = user.id := by
    unfold effectiveUserId
    cases req.userId with
    | none => rfl
    | some u => simp [hadmin]
  unfold attachmentsList at hok
  rw [heff] at hok
  cases hdoc : (match req.documentId with
      | some docId => authorizeDocRead env docId
      | none => Except.ok ()) with
  | error e => rw [hdoc] at hok; cases hok
  | ok u =>
    rw [hdoc] at hok
    simp only [Except.ok.injEq, Prod.mk.injEq] at hok
    obtain ⟨hdata, htotal⟩ := hok
    subst hdata
    intro a ha
    have h1 : a ∈ sortByCreatedAtDesc
        (st.filter (whereMatches user user.id req.documentId)) :=
      List.mem_of_mem_drop (List.mem_of_mem_take ha)
    have h2 : a ∈ st.filter (whereMatches user user.id req.documentId) :=
      mem_sortByCreatedAtDesc.mp h1
    have h3 := (List.mem_filter.mp h2).2
    unfold whereMatches at h3
    simp only [Bool.and_eq_true, beq_iff_eq] at h3
    exact h3.1.2

/-- C7 witness: with another user's attachment in the same team and a
requested filter for that other user, the concrete non-admin caller still
only receives their own rows. -/
theorem list_non_admin_own_only_witness : publicRec.userId = callerW.id :=
  list_non_admin_own_only baseEnv callerW
    { documentId := none, userId := some 2, offset := 0, limit := 25 }
    [publicRec, otherUserRec] [publicRec] 1 rfl rfl publicRec (by simp)

/-- C9: in the client `uploadFile` driver, given the final transport
completion (`readyState` 4 at `loadend`), the transfer resolves as
successful exactly when the completion status lies in `[200, 400)`, and any
status outside that range surfaces as the single terminal
`Error("Upload failed")`. -/
theorem uploadFile_success_iff_status
    (createResult : Except ApiError CreateResponseData)
    (completion : XhrCompletion) (data : CreateResponseData)
    (hok : createResult = Except.ok data)
    (hready : completion.readyState = 4) :
    (uploadFile createResult completion = Except.ok data.attachment ↔
      200 ≤ completion.status ∧ completion.status < 400) ∧
    (¬(200 ≤ completion.status ∧ completion.status < 400) →
      uploadFile createResult completion =
        Except.error (UploadFailure.transfer "Upload failed")) := by
  subst hok
  unfold uploadFile uploadSucceeded
  by_cases h2 : 200 ≤ completion.status
  · by_cases h4 : completion.status < 400 <;> simp [hready, h2, h4]
  · simp [hready, h2]

/-- C9 witness: a 204 completion at `readyState` 4 resolves as success for
the concrete create response. -/
theorem uploadFile_success_iff_status_witness :
    uploadFile
        (Except.ok { uploadUrl := "https://storage.example.com", form := []
                     attachment := { id := 42, url := "u" } })
        { readyState := 4, status := 204 } =
      Except.ok ({ id := 42, url := "u" } : AttachmentProjection) :=
  (uploadFile_success_iff_status
    (Except.ok { uploadUrl := "https://storage.example.com", form := []
                 attachment := { id := 42, url := "u" } })
    { readyState := 4, status := 204 }
    { uploadUrl := "https://storage.example.com", form := []
      attachment := { id := 42, url := "u" } } rfl rfl).1.mpr
    ⟨by decide, by decide⟩

end Attachments
